import Mathlib

/-!
# Verification of the ABC Renewables synthetic data generator

Shallow embedding of `src/data_generation/generate_synthetic_data.py`
(`RenewableEnergyDataGenerator`).  Machine reals are modelled by `ℚ`;
nullable (NaN-able) cells by `Option ℚ`; a raised exception by
`Except.error`.

Randomness model: every random stage in the source starts with
`np.random.seed(s)` and then consumes a deterministic stream determined
by `s` alone.  We model this with an environment `Env` holding, for each
kind of numpy draw, a function of the seed and of the index of the draw
inside the stream started by that seed.  Distinct vectorized draw arrays
inside one stage use disjoint index ranges.  Bounds documented by numpy
(`random.random`/`uniform` in the unit interval after affine scaling,
`gamma`/`exponential` non-negative) are carried as proof fields; the
values themselves stay abstract, so every theorem quantified over `Env`
holds for the real generator.  `np.sin (π * x)` is modelled by the
abstract `sinPi`; pandas' calendar accessors `dayofyear`/`dayofweek` and
Python's built-in string `hash` (which is salted per process) are also
Env fields, a date being its ordinal day number.
-/

/-- Environment of deterministic random streams and library functions
(see the module comment). -/
structure Env where
  sinPi : ℚ → ℚ
  dayofyear : Nat → Nat
  dayofweek : Nat → Nat
  normal : Nat → Nat → ℚ
  unit : Nat → Nat → ℚ
  gammaDraw : Nat → Nat → ℚ
  expDraw : Nat → Nat → ℚ
  choice4 : Nat → Nat → Fin 4
  weighted6 : Nat → Nat → List ℚ → Fin 6
  pyHash : String → Nat
  unit_nonneg : ∀ s i, 0 ≤ unit s i
  unit_le_one : ∀ s i, unit s i ≤ 1
  gamma_nonneg : ∀ s i, 0 ≤ gammaDraw s i
  exp_nonneg : ∀ s i, 0 ≤ expDraw s i

/-- One catalog entry of `self.sites` (the value of the dict). -/
structure SiteInfo where
  name : String
  type : String
  capacity_mw : Option ℚ
  capacity_mwh : Option ℚ
deriving DecidableEq, Inhabited

/-- One row of the merged dataset (the 11-column contract). -/
structure Row where
  date : Nat
  siteId : String
  siteName : String
  siteType : String
  energy : Option ℚ
  price : ℚ
  revenue : Option ℚ
  weather : String
  downtime : ℚ
  temp : Option ℚ
  wind : Option ℚ
deriving DecidableEq, Inhabited

/-- The generator's constructor state: `__init__` stores the parsed start
and end dates and the site dict (insertion-ordered). -/
structure Gen where
  start_date : Nat
  end_date : Nat
  sites : List (String × SiteInfo)

/-- `pd.date_range(start, end, freq='D')`: the inclusive run of days, empty
when `start > end`. -/
def Gen.date_range (g : Gen) : List Nat :=
  if g.start_date ≤ g.end_date then
    (List.range (g.end_date - g.start_date + 1)).map (fun i => g.start_date + i)
  else []

/-- `self.weather_conditions`. -/
def weather_condition_labels : List String :=
  ["Sunny", "Partly Cloudy", "Cloudy", "Rainy", "Stormy", "Foggy"]

/-- The reference catalog `self.sites` of the source. -/
def reference_sites : List (String × SiteInfo) :=
  [("SOLAR001", ⟨"Desert Sun Solar Farm", "solar", some 50, none⟩),
   ("SOLAR002", ⟨"Coastal Solar Array", "solar", some 35, none⟩),
   ("SOLAR003", ⟨"Mountain Ridge Solar", "solar", some 60, none⟩),
   ("WIND001", ⟨"Prairie Wind Farm", "wind", some 100, none⟩),
   ("WIND002", ⟨"Offshore Wind Array", "wind", some 150, none⟩),
   ("BATT001", ⟨"Grid Scale Battery", "battery", none, some 200⟩)]

/-- `_generate_spot_market_price` (seed 42).  Volatility draws use the
normal stream; the spike mask uses unit draws at indices `0..n-1` and the
spike magnitudes `uniform(20, 80)` unit draws at `n..2n-1`. -/
def generate_spot_market_price (env : Env) (start_date : Nat) (dates : List Nat) : List ℚ :=
  let n := dates.length
  (List.range n).map fun i =>
    let d := dates.getD i 0
    let doy : ℚ := env.dayofyear d
    let seasonal := 10 * env.sinPi (2 * doy / 365.25) + 8 * env.sinPi (4 * doy / 365.25)
    let weekly : ℚ := if env.dayofweek d < 5 then 5 else 0
    let years_since_start : ℚ := ((d : ℚ) - (start_date : ℚ)) / 365.25
    let trend := 2 * years_since_start
    let volatility := env.normal 42 i
    let spike : ℚ := if env.unit 42 i < 0.05 then 20 + 60 * env.unit 42 (n + i) else 0
    max (45 + seasonal + weekly + trend + volatility + spike) 5

/-- The unnormalized condition weights of `_generate_weather_data`. -/
def weather_weights (temperature wind_speed : ℚ) : List ℚ :=
  [0.4 + (if 20 < temperature then 0.2 else 0),
   0.25, 0.2,
   0.1 + (if temperature < 10 then 0.1 else 0),
   0.03 + (if 15 < wind_speed then 0.02 else 0),
   0.02 + (if temperature < 5 then 0.03 else 0)]

/-- `_generate_weather_data` (seed 123): per-day condition label,
temperature and wind speed.  Temperature noise uses the normal stream,
wind noise the gamma stream; the categorical draw over the normalized
weights is the abstract `weighted6`. -/
def generate_weather_data (env : Env) (dates : List Nat) :
    List String × List ℚ × List ℚ :=
  let n := dates.length
  let temperature := (List.range n).map fun i =>
    let doy : ℚ := env.dayofyear (dates.getD i 0)
    15 + 12 * env.sinPi (2 * (doy - 80) / 365.25) + env.normal 123 i
  let wind_speed := (List.range n).map fun i =>
    let doy : ℚ := env.dayofyear (dates.getD i 0)
    max (8 + 3 * env.sinPi (2 * (doy - 120) / 365.25) + env.gammaDraw 123 i) 0
  let conditions := (List.range n).map fun i =>
    let w := weather_weights (temperature.getD i 0) (wind_speed.getD i 0)
    let probs := w.map (fun x => x / w.sum)
    weather_condition_labels.getD (env.weighted6 123 i probs) ""
  (conditions, temperature, wind_speed)

/-- Solar weather derate chain of `_generate_solar_production`. -/
def solar_weather_factor (w : String) : ℚ :=
  if w = "Sunny" then 0.95
  else if w = "Partly Cloudy" then 0.75
  else if w = "Cloudy" then 0.45
  else if w = "Rainy" then 0.2
  else if w = "Stormy" then 0.1
  else if w = "Foggy" then 0.3
  else 0.5

/-- `_generate_solar_production`; `uniform(0.8, 1.2)` is `0.8 + 0.4·u`
over the unit draws of the stream seeded by the site hash. -/
def generate_solar_production (env : Env) (seed : Nat) (dates : List Nat)
    (weather : List String) (temperature : List ℚ) (capacity : ℚ) : List ℚ :=
  let n := dates.length
  (List.range n).map fun i =>
    let doy : ℚ := env.dayofyear (dates.getD i 0)
    let seasonal_factor := 0.7 + 0.3 * env.sinPi (2 * (doy - 80) / 365.25)
    let weather_factor := solar_weather_factor (weather.getD i "")
    let temp_factor := max 0.5 (1 - 0.01 * max 0 (temperature.getD i 0 - 25))
    let daily_variation := 0.8 + 0.4 * env.unit seed i
    let base_hours := 8 + 4 * seasonal_factor
    max (capacity * base_hours * seasonal_factor * weather_factor * temp_factor * daily_variation) 0

/-- The nested `np.where` power curve of `_generate_wind_production`:
cut-in 3.5 m/s, rated 12 m/s, cut-out 25 m/s. -/
def capacity_factor (wind_speed : ℚ) : ℚ :=
  if wind_speed < 3.5 then 0
  else if wind_speed < 12 then (wind_speed / 12) ^ 3
  else if wind_speed < 25 then 1
  else 0

/-- Wind weather factor chain of `_generate_wind_production`. -/
def wind_weather_factor (w : String) : ℚ :=
  if w = "Sunny" then 0.8
  else if w = "Partly Cloudy" then 0.9
  else if w = "Cloudy" then 1.0
  else if w = "Rainy" then 1.1
  else if w = "Stormy" then 1.3
  else if w = "Foggy" then 0.7
  else 1.0

/-- `_generate_wind_production`; `uniform(0.85, 1.15)` is `0.85 + 0.3·u`. -/
def generate_wind_production (env : Env) (seed : Nat) (dates : List Nat)
    (weather : List String) (wind_speed : List ℚ) (capacity : ℚ) : List ℚ :=
  let n := dates.length
  (List.range n).map fun i =>
    let cf := capacity_factor (wind_speed.getD i 0)
    let weather_factor := wind_weather_factor (weather.getD i "")
    let daily_variation := 0.85 + 0.3 * env.unit seed i
    max (capacity * 24 * cf * weather_factor * daily_variation) 0

/-- Battery weather dispatch factor chain of `_generate_battery_production`. -/
def battery_weather_factor (w : String) : ℚ :=
  if w = "Sunny" then 0.3
  else if w = "Partly Cloudy" then 0.5
  else if w = "Cloudy" then 0.8
  else if w = "Rainy" then 1.0
  else if w = "Stormy" then 1.2
  else if w = "Foggy" then 0.9
  else 0.6

/-- `_generate_battery_production`; `uniform(0.3, 1.0)` is `0.3 + 0.7·u`,
and the discharge duration is 4 hours. -/
def generate_battery_production (env : Env) (seed : Nat) (dates : List Nat)
    (weather : List String) (capacity : ℚ) : List ℚ :=
  let n := dates.length
  (List.range n).map fun i =>
    let d := dates.getD i 0
    let doy : ℚ := env.dayofyear d
    let seasonal_factor := 0.4 + 0.3 * |env.sinPi (2 * doy / 365.25)|
    let weekly_factor : ℚ := 0.8 + (if env.dayofweek d < 5 then 0.4 else 0)
    let weather_factor := battery_weather_factor (weather.getD i "")
    let operational_factor := 0.3 + 0.7 * env.unit seed i
    max (capacity * 4 * seasonal_factor * weekly_factor * weather_factor * operational_factor) 0

/-- `site_info.get('capacity_mw', site_info.get('capacity_mwh', 50))`. -/
def SiteInfo.capacity (info : SiteInfo) : ℚ :=
  match info.capacity_mw with
  | some c => c
  | none => info.capacity_mwh.getD 50

/-- `_generate_energy_production`: reseeds with `hash(site_id) % 2**32`
and dispatches on the site type; an unknown type raises `ValueError`. -/
def generate_energy_production (env : Env) (site_id : String) (info : SiteInfo)
    (dates : List Nat) (weather : List String) (temperature wind_speed : List ℚ) :
    Except String (List ℚ) :=
  let seed := env.pyHash site_id % 2 ^ 32
  if info.type = "solar" then
    Except.ok (generate_solar_production env seed dates weather temperature info.capacity)
  else if info.type = "wind" then
    Except.ok (generate_wind_production env seed dates weather wind_speed info.capacity)
  else if info.type = "battery" then
    Except.ok (generate_battery_production env seed dates weather info.capacity)
  else
    Except.error ("Unknown site type: " ++ info.type)

/-- The `maintenance_prob` dict of `_generate_downtime`; an unknown key
would raise `KeyError`, modelled by `none`. -/
def maintenance_prob (site_type : String) : Option ℚ :=
  if site_type = "solar" then some 0.02
  else if site_type = "wind" then some 0.03
  else if site_type = "battery" then some 0.01
  else none

/-- `_generate_downtime` (seed 456): Bernoulli maintenance events with
`uniform(2, 12)` durations (unit draws at `n..2n-1`), an exponential
weather-outage term zeroed above 3 hours, the sum capped at 24. -/
def generate_downtime (env : Env) (dates : List Nat) (site_type : String) :
    Option (List ℚ) :=
  (maintenance_prob site_type).map fun p =>
    let n := dates.length
    (List.range n).map fun i =>
      let maintenance : ℚ := if env.unit 456 i < p then 2 + 10 * env.unit 456 (n + i) else 0
      let raw_outage := env.expDraw 456 i
      let weather_outage := if 3 < raw_outage then 0 else raw_outage
      min (maintenance + weather_outage) 24

/-- The row assembled for day index `i` of one site's DataFrame in
`generate_site_data` (production already derated by availability
`1 − downtime/24`, revenue `energy × price / 1000`). -/
def site_row (gen : Gen) (site_id : String) (info : SiteInfo)
    (weather : List String) (temperature wind_speed spot_prices ep dt : List ℚ)
    (i : Nat) : Row :=
  let energy := ep.getD i 0 * (1 - dt.getD i 0 / 24)
  { date := gen.date_range.getD i 0
    siteId := site_id
    siteName := info.name
    siteType := info.type
    energy := some energy
    price := spot_prices.getD i 0
    revenue := some (energy * spot_prices.getD i 0 / 1000)
    weather := weather.getD i ""
    downtime := dt.getD i 0
    temp := some (temperature.getD i 0)
    wind := some (wind_speed.getD i 0) }

/-- `generate_site_data`: looks the site up in `self.sites`, falls back to
freshly generated weather/price series when any of them is `None`,
generates production and downtime, derates by availability and assembles
the site's rows. -/
def generate_site_data (env : Env) (gen : Gen) (site_id : String)
    (weather_conditions : Option (List String))
    (temperature wind_speed spot_prices : Option (List ℚ)) :
    Except String (List Row) :=
  match gen.sites.find? (fun s => s.1 == site_id) with
  | none => Except.error ("KeyError: " ++ site_id)
  | some (sid, info) =>
    let shared :=
      match weather_conditions, temperature, wind_speed with
      | some w, some t, some ws => (w, t, ws)
      | _, _, _ => generate_weather_data env gen.date_range
    let prices :=
      match spot_prices with
      | some p => p
      | none => generate_spot_market_price env gen.start_date gen.date_range
    match generate_energy_production env sid info gen.date_range shared.1 shared.2.1 shared.2.2 with
    | Except.error e => Except.error e
    | Except.ok ep =>
      match generate_downtime env gen.date_range info.type with
      | none => Except.error ("KeyError: " ++ info.type)
      | some dt =>
        Except.ok ((List.range gen.date_range.length).map
          (site_row gen sid info shared.1 shared.2.1 shared.2.2 prices ep dt))

/-- `_introduce_missing_values` (seed 789, default rate 0.02): the three
nullable columns are nulled cell-wise; the column loop consumes one
`random(len(df))` array per column, so column `k` uses unit draws
`k·n .. k·n+n-1`. -/
def introduce_missing_values (env : Env) (rows : List Row) (missing_rate : ℚ) :
    List Row :=
  let n := rows.length
  (List.range n).map fun i =>
    let r := rows.getD i default
    { r with
      energy := if env.unit 789 i < missing_rate then none else r.energy
      temp := if env.unit 789 (n + i) < missing_rate then none else r.temp
      wind := if env.unit 789 (2 * n + i) < missing_rate then none else r.wind }

/-- The multiplier set of `_introduce_outliers`. -/
def outlier_multiplier : Fin 4 → ℚ
  | 0 => 0.1
  | 1 => 0.2
  | 2 => 2.0
  | 3 => 3.0

/-- Worker for `introduce_outliers`: `i` indexes the row-mask draws,
`k` counts masked rows so far (the k-th masked row receives the k-th
`np.random.choice` multiplier). -/
def introduce_outliers_go (env : Env) (rate : ℚ) :
    List Row → Nat → Nat → List Row
  | [], _, _ => []
  | r :: rs, i, k =>
    if env.unit 101112 i < rate then
      { r with energy := r.energy.map (fun e => e * outlier_multiplier (env.choice4 101112 k)) } ::
        introduce_outliers_go env rate rs (i + 1) (k + 1)
    else
      r :: introduce_outliers_go env rate rs (i + 1) k

/-- `_introduce_outliers` (seed 101112, default rate 0.01): multiplies the
energy of a masked row by one of {0.1, 0.2, 2.0, 3.0}; a NaN energy stays
NaN, every other cell is untouched. -/
def introduce_outliers (env : Env) (rows : List Row) (outlier_rate : ℚ) : List Row :=
  introduce_outliers_go env outlier_rate rows 0 0

/-- The final revenue recomputation of `generate_all_data`:
`Revenue = EnergyProduced_kWh * SpotMarketPrice / 1000`, with NaN energy
propagating to NaN revenue. -/
def recalc_revenue (rows : List Row) : List Row :=
  rows.map fun r => { r with revenue := r.energy.map (fun e => e * r.price / 1000) }

/-- Comparison used by `sort_values(['Date', 'SiteID'])`. -/
def rowLE (a b : Row) : Bool :=
  if a.date < b.date then true
  else if b.date < a.date then false
  else a.siteId ≤ b.siteId

/-- Stable insertion of one row into a sorted list. -/
def insertRow (r : Row) : List Row → List Row
  | [] => [r]
  | x :: xs => if rowLE x r then x :: insertRow r xs else r :: x :: xs

/-- Stable sort by (Date, SiteID) modelling `sort_values`. -/
def sortRows : List Row → List Row
  | [] => []
  | r :: rs => insertRow r (sortRows rs)

/-- List-of-results version of the `for site_id in self.sites.keys()`
accumulation loop: the first raised exception propagates. -/
def mapExcept (f : α → Except String β) : List α → Except String (List β)
  | [] => Except.ok []
  | a :: as =>
    match f a with
    | Except.error e => Except.error e
    | Except.ok b =>
      match mapExcept f as with
      | Except.error e => Except.error e
      | Except.ok bs => Except.ok (b :: bs)

/-- The pre-degradation merged table of `generate_all_data`: one shared
weather triple and one shared price series for the whole range, one block
of rows per site, concatenated (`pd.concat`). -/
def combined_raw (env : Env) (gen : Gen) : Except String (List Row) :=
  let shared := generate_weather_data env gen.date_range
  let prices := generate_spot_market_price env gen.start_date gen.date_range
  match mapExcept
      (fun site_id => generate_site_data env gen site_id
        (some shared.1) (some shared.2.1) (some shared.2.2) (some prices))
      (gen.sites.map Prod.fst) with
  | Except.error e => Except.error e
  | Except.ok blocks => Except.ok blocks.flatten

/-- `generate_all_data`: merged table, then missing values (rate 0.02),
outliers (rate 0.01), revenue recomputation and the final sort by
(Date, SiteID). -/
def generate_all_data (env : Env) (gen : Gen) : Except String (List Row) :=
  match combined_raw env gen with
  | Except.error e => Except.error e
  | Except.ok combined =>
    Except.ok (sortRows (recalc_revenue
      (introduce_outliers env (introduce_missing_values env combined 0.02) 0.01)))

/-- A concrete environment used to instantiate the universally quantified
theorems: all noise streams are zero except that the unit stream of seed
0 differs from every other seed's, and the built-in string hash is the
constant 0 (one possible process hash salt). -/
def envA : Env where
  sinPi := fun _ => 0
  dayofyear := fun _ => 1
  dayofweek := fun _ => 0
  normal := fun _ _ => 0
  unit := fun s _ => if s = 0 then 0 else 1 / 2
  gammaDraw := fun _ _ => 0
  expDraw := fun _ _ => 0
  choice4 := fun _ _ => 0
  weighted6 := fun _ _ _ => 0
  pyHash := fun _ => 0
  unit_nonneg := by intro s i; dsimp only; split <;> norm_num
  unit_le_one := by intro s i; dsimp only; split <;> norm_num
  gamma_nonneg := fun _ _ => le_refl 0
  exp_nonneg := fun _ _ => le_refl 0

/-- The same process state with a different string-hash salt: identical
numpy streams, but `hash` maps every site id to 1 instead of 0. -/
def envB : Env := { envA with pyHash := fun _ => 1 }

/-- A one-day, one-site catalog instance. -/
def genW : Gen :=
  { start_date := 0, end_date := 0,
    sites := [("SOLAR001", ⟨"Desert Sun Solar Farm", "solar", some 50, none⟩)] }

/-- A one-day catalog with one solar and one wind site. -/
def genC4 : Gen :=
  { start_date := 0, end_date := 0,
    sites := [("SOLAR001", ⟨"Desert Sun Solar Farm", "solar", some 50, none⟩),
              ("WIND001", ⟨"Prairie Wind Farm", "wind", some 100, none⟩)] }

/-- A one-day catalog with two solar sites. -/
def genC10 : Gen :=
  { start_date := 0, end_date := 0,
    sites := [("SOLAR001", ⟨"Desert Sun Solar Farm", "solar", some 50, none⟩),
              ("SOLAR002", ⟨"Coastal Solar Array", "solar", some 35, none⟩)] }

/-- The reference catalog with an inverted date range (start after end). -/
def genInv : Gen :=
  { start_date := 5, end_date := 1, sites := reference_sites }

/-- The row `generate_all_data envA genW` produces (energy
`50·10.8·0.7·0.95·1·0.8 = 287.28`, price 50). -/
def rW : Row :=
  { date := 0, siteId := "SOLAR001", siteName := "Desert Sun Solar Farm",
    siteType := "solar", energy := some (7182 / 25), price := 50,
    revenue := some (3591 / 250), weather := "Sunny", downtime := 0,
    temp := some 15, wind := some 8 }

/-- The table produced by `generate_all_data envA genW`. -/
def tW : List Row := [rW]

/-- The `WIND001` row of `combined_raw envA genC4` (capacity factor
`(8/12)³ = 8/27`, energy `100·24·(8/27)·0.8·0.85 = 4352/9`). -/
def rW2 : Row :=
  { date := 0, siteId := "WIND001", siteName := "Prairie Wind Farm",
    siteType := "wind", energy := some (4352 / 9), price := 50,
    revenue := some (1088 / 45), weather := "Sunny", downtime := 0,
    temp := some 15, wind := some 8 }

/-- The `SOLAR002` row of `generate_site_data envA genC10` (capacity 35,
energy `35·10.8·0.7·0.95·1·0.8 = 25137/125`). -/
def rW3 : Row :=
  { date := 0, siteId := "SOLAR002", siteName := "Coastal Solar Array",
    siteType := "solar", energy := some (25137 / 125), price := 50,
    revenue := some (25137 / 2500), weather := "Sunny", downtime := 0,
    temp := some 15, wind := some 8 }

/-- The row `generate_all_data envB genW` produces: with hash salt 1 the
solar noise draw changes from 0.8 to 1.0 and energy becomes 359.1. -/
def rB : Row :=
  { date := 0, siteId := "SOLAR001", siteName := "Desert Sun Solar Farm",
    siteType := "solar", energy := some (3591 / 10), price := 50,
    revenue := some (3591 / 200), weather := "Sunny", downtime := 0,
    temp := some 15, wind := some 8 }

/-- A catalog entry whose type the dispatch does not recognize. -/
def siteNuclear : SiteInfo := ⟨"Atomic Plant", "nuclear", some 10, none⟩

/-- The fields no degradation or recomputation step touches. -/
def sameMeta (a b : Row) : Prop :=
  a.date = b.date ∧ a.siteId = b.siteId ∧ a.siteName = b.siteName ∧
  a.siteType = b.siteType ∧ a.price = b.price ∧ a.weather = b.weather ∧
  a.downtime = b.downtime

/-! ## Properties named by the claims -/

/-- C1: the row's revenue is recomputed from its own (post-degradation)
energy and price: missing energy gives missing revenue, present energy
gives a present revenue within 1e-2 of energy × price / 1000. -/
def revenue_ok (r : Row) : Prop :=
  (r.energy = none → r.revenue = none) ∧
  ∀ e, r.energy = some e →
    ∃ rev, r.revenue = some rev ∧ |rev - e * r.price / 1000| < 1 / 100

/-- C3: neither degradation stage changes the number of rows. -/
def degradation_preserves_rows (env : Env) : Prop :=
  ∀ rows rate, (introduce_missing_values env rows rate).length = rows.length ∧
    (introduce_outliers env rows rate).length = rows.length

/-- C3: every degraded row is one of the input rows with only its
energy/temperature/wind-speed (and later revenue) cells altered. -/
def degradation_only_touches_cells (env : Env) : Prop :=
  ∀ rows rate r,
    (r ∈ introduce_missing_values env rows rate → ∃ r' ∈ rows, sameMeta r r') ∧
    (r ∈ introduce_outliers env rows rate → ∃ r' ∈ rows, sameMeta r r')

/-- C4: the four shared per-day columns. -/
def shared_row_fields (r1 r2 : Row) : Prop :=
  r1.weather = r2.weather ∧ r1.temp = r2.temp ∧
  r1.wind = r2.wind ∧ r1.price = r2.price

/-- C5: the three-region power curve exactly as the spec words it. -/
def wind_power_curve_spec : Prop :=
  ∀ ws : ℚ,
    (ws < 3.5 → capacity_factor ws = 0) ∧
    (3.5 ≤ ws → ws < 12 → capacity_factor ws = (ws / 12) ^ 3) ∧
    (12 ≤ ws → ws < 25 → capacity_factor ws = 1) ∧
    (25 ≤ ws → capacity_factor ws = 0)

/-- C5: a day with wind speed below cut-in yields exactly zero energy
from the wind production model (the noise is multiplicative). -/
def wind_zero_below_cut_in : Prop :=
  ∀ (env : Env) (seed : Nat) (dates : List Nat) (weather : List String)
    (wind_speed : List ℚ) (capacity : ℚ) (i : Nat),
    i < dates.length → wind_speed.getD i 0 < 3.5 →
    (generate_wind_production env seed dates weather wind_speed capacity).getD i 0 = 0

/-- C6: every value of the price model is at least the floor 5. -/
def price_model_floored (env : Env) (gen : Gen) : Prop :=
  ∀ p ∈ generate_spot_market_price env gen.start_date gen.date_range, 5 ≤ p

/-- C6: `SpotMarketPrice > 0` in every output row. -/
def table_price_positive (t : List Row) : Prop := ∀ r ∈ t, 0 < r.price

/-- C7: every downtime series the model produces stays within [0, 24]. -/
def downtime_model_bounded (env : Env) : Prop :=
  ∀ dates stype dt, generate_downtime env dates stype = some dt →
    ∀ x ∈ dt, 0 ≤ x ∧ x ≤ 24

/-- C7: `DowntimeHours ∈ [0, 24]` in every output row. -/
def table_downtime_bounded (t : List Row) : Prop :=
  ∀ r ∈ t, 0 ≤ r.downtime ∧ r.downtime ≤ 24

/-- The recognized site types of the dispatch. -/
def known_site_type (ty : String) : Prop :=
  ty = "solar" ∨ ty = "wind" ∨ ty = "battery"

/-- C9: unrecognized types raise immediately; recognized types never
reach the error branch. -/
def dispatch_spec (env : Env) : Prop :=
  ∀ (sid : String) (info : SiteInfo) (dates : List Nat) (w : List String)
    (t ws : List ℚ),
    (¬ known_site_type info.type →
      generate_energy_production env sid info dates w t ws =
        Except.error ("Unknown site type: " ++ info.type)) ∧
    (known_site_type info.type →
      (generate_energy_production env sid info dates w t ws).isOk = true)

/-- C10: the `DowntimeHours` column of a site's block. -/
def downtime_col (rows : List Row) : List ℚ := rows.map Row.downtime

/-- The degraded, recomputed, sorted table built from a merged table. -/
def finalize (env : Env) (combined : List Row) : List Row :=
  sortRows (recalc_revenue
    (introduce_outliers env (introduce_missing_values env combined 0.02) 0.01))

/-! ## Basic facts about the embedded operations -/

lemma date_range_length (g : Gen) (h : g.start_date ≤ g.end_date) :
    g.date_range.length = g.end_date - g.start_date + 1 := by
  simp [Gen.date_range, h]

lemma date_range_getD (g : Gen) (i : Nat) (hi : i < g.date_range.length) :
    g.date_range.getD i 0 = g.start_date + i := by
  unfold Gen.date_range at hi ⊢
  by_cases h : g.start_date ≤ g.end_date
  · simp only [if_pos h] at hi ⊢
    rw [List.getD_eq_getElem _ _ hi]
    simp
  · simp [if_neg h] at hi

lemma generate_spot_market_price_length (env : Env) (s : Nat) (dates : List Nat) :
    (generate_spot_market_price env s dates).length = dates.length := by
  simp [generate_spot_market_price]

lemma generate_weather_data_lengths (env : Env) (dates : List Nat) :
    (generate_weather_data env dates).1.length = dates.length ∧
    (generate_weather_data env dates).2.1.length = dates.length ∧
    (generate_weather_data env dates).2.2.length = dates.length := by
  refine ⟨?_, ?_, ?_⟩ <;> simp [generate_weather_data]

lemma generate_solar_production_length (env : Env) (seed : Nat) (dates : List Nat)
    (w : List String) (t : List ℚ) (c : ℚ) :
    (generate_solar_production env seed dates w t c).length = dates.length := by
  simp [generate_solar_production]

lemma generate_wind_production_length (env : Env) (seed : Nat) (dates : List Nat)
    (w : List String) (ws : List ℚ) (c : ℚ) :
    (generate_wind_production env seed dates w ws c).length = dates.length := by
  simp [generate_wind_production]

lemma generate_battery_production_length (env : Env) (seed : Nat) (dates : List Nat)
    (w : List String) (c : ℚ) :
    (generate_battery_production env seed dates w c).length = dates.length := by
  simp [generate_battery_production]

lemma generate_energy_production_ok_length (env : Env) (sid : String) (info : SiteInfo)
    (dates : List Nat) (w : List String) (t ws : List ℚ) (ep : List ℚ)
    (h : generate_energy_production env sid info dates w t ws = Except.ok ep) :
    ep.length = dates.length := by
  unfold generate_energy_production at h
  split at h
  · cases h
    exact generate_solar_production_length ..
  · split at h
    · cases h
      exact generate_wind_production_length ..
    · split at h
      · cases h
        exact generate_battery_production_length ..
      · cases h

lemma generate_downtime_some_length (env : Env) (dates : List Nat) (ty : String)
    (dt : List ℚ) (h : generate_downtime env dates ty = some dt) :
    dt.length = dates.length := by
  unfold generate_downtime at h
  cases hm : maintenance_prob ty with
  | none => rw [hm] at h; cases h
  | some p =>
    rw [hm] at h
    simp only [Option.map_some] at h
    cases h
    simp

lemma generate_site_data_eq (env : Env) (gen : Gen) (sid sid' : String)
    (info : SiteInfo) (w : List String) (t ws p ep dt : List ℚ)
    (hfind : gen.sites.find? (fun s => s.1 == sid) = some (sid', info))
    (hep : generate_energy_production env sid' info gen.date_range w t ws = Except.ok ep)
    (hdt : generate_downtime env gen.date_range info.type = some dt) :
    generate_site_data env gen sid (some w) (some t) (some ws) (some p) =
      Except.ok ((List.range gen.date_range.length).map
        (site_row gen sid' info w t ws p ep dt)) := by
  unfold generate_site_data
  rw [hfind]
  dsimp only
  rw [hep, hdt]

lemma generate_site_data_some_ok_inv (env : Env) (gen : Gen) (sid : String)
    (w : List String) (t ws p : List ℚ) (rows : List Row)
    (h : generate_site_data env gen sid (some w) (some t) (some ws) (some p) =
      Except.ok rows) :
    ∃ sid' info ep dt,
      gen.sites.find? (fun s => s.1 == sid) = some (sid', info) ∧
      generate_energy_production env sid' info gen.date_range w t ws = Except.ok ep ∧
      generate_downtime env gen.date_range info.type = some dt ∧
      rows = (List.range gen.date_range.length).map
        (site_row gen sid' info w t ws p ep dt) := by
  unfold generate_site_data at h
  cases hfind : gen.sites.find? (fun s => s.1 == sid) with
  | none => rw [hfind] at h; cases h
  | some si =>
    rw [hfind] at h
    obtain ⟨sid', info⟩ := si
    dsimp only at h
    cases hep : generate_energy_production env sid' info gen.date_range w t ws with
    | error e => rw [hep] at h; cases h
    | ok ep =>
      rw [hep] at h
      cases hdt : generate_downtime env gen.date_range info.type with
      | none => rw [hdt] at h; cases h
      | some dt =>
        rw [hdt] at h
        cases h
        exact ⟨sid', info, ep, dt, rfl, hep, hdt, rfl⟩

lemma generate_site_data_ok_length (env : Env) (gen : Gen) (sid : String)
    (w : List String) (t ws p : List ℚ) (rows : List Row)
    (h : generate_site_data env gen sid (some w) (some t) (some ws) (some p) =
      Except.ok rows) :
    rows.length = gen.date_range.length := by
  obtain ⟨sid', info, ep, dt, _, _, _, hrows⟩ :=
    generate_site_data_some_ok_inv env gen sid w t ws p rows h
  simp [hrows]

lemma mapExcept_nil (f : α → Except String β) : mapExcept f [] = Except.ok [] := rfl

lemma mapExcept_cons_ok (f : α → Except String β) (a : α) (as : List α)
    (b : β) (bs : List β) (ha : f a = Except.ok b) (has : mapExcept f as = Except.ok bs) :
    mapExcept f (a :: as) = Except.ok (b :: bs) := by
  unfold mapExcept
  rw [ha, has]

lemma mapExcept_ok_length (f : α → Except String β) (l : List α) (bs : List β)
    (h : mapExcept f l = Except.ok bs) : bs.length = l.length := by
  induction l generalizing bs with
  | nil => cases h; rfl
  | cons a as ih =>
    unfold mapExcept at h
    cases hfa : f a with
    | error e => rw [hfa] at h; cases h
    | ok b =>
      rw [hfa] at h
      cases has : mapExcept f as with
      | error e => rw [has] at h; cases h
      | ok bs' =>
        rw [has] at h
        cases h
        simp [ih bs' has]

lemma mapExcept_ok_mem (f : α → Except String β) (l : List α) (bs : List β)
    (h : mapExcept f l = Except.ok bs) (b : β) (hb : b ∈ bs) :
    ∃ a ∈ l, f a = Except.ok b := by
  induction l generalizing bs with
  | nil => cases h; cases hb
  | cons a as ih =>
    unfold mapExcept at h
    cases hfa : f a with
    | error e => rw [hfa] at h; cases h
    | ok b' =>
      rw [hfa] at h
      cases has : mapExcept f as with
      | error e => rw [has] at h; cases h
      | ok bs' =>
        rw [has] at h
        have hbs : bs = b' :: bs' := (Except.ok.inj h).symm
        subst hbs
        rcases List.mem_cons.mp hb with hb1 | hb1
        · subst hb1
          exact ⟨a, List.mem_cons_self a as, hfa⟩
        · obtain ⟨a', ha', hfa'⟩ := ih bs' has hb1
          exact ⟨a', List.mem_cons_of_mem a ha', hfa'⟩

lemma combined_raw_eq (env : Env) (gen : Gen) (blocks : List (List Row))
    (h : mapExcept
      (fun site_id => generate_site_data env gen site_id
        (some (generate_weather_data env gen.date_range).1)
        (some (generate_weather_data env gen.date_range).2.1)
        (some (generate_weather_data env gen.date_range).2.2)
        (some (generate_spot_market_price env gen.start_date gen.date_range)))
      (gen.sites.map Prod.fst) = Except.ok blocks) :
    combined_raw env gen = Except.ok blocks.flatten := by
  unfold combined_raw
  dsimp only
  rw [h]

lemma combined_raw_ok_inv (env : Env) (gen : Gen) (l : List Row)
    (h : combined_raw env gen = Except.ok l) :
    ∃ blocks,
      mapExcept
        (fun site_id => generate_site_data env gen site_id
          (some (generate_weather_data env gen.date_range).1)
          (some (generate_weather_data env gen.date_range).2.1)
          (some (generate_weather_data env gen.date_range).2.2)
          (some (generate_spot_market_price env gen.start_date gen.date_range)))
        (gen.sites.map Prod.fst) = Except.ok blocks ∧
      l = blocks.flatten := by
  unfold combined_raw at h
  dsimp only at h
  split at h
  · cases h
  · rename_i blocks heq
    cases h
    exact ⟨blocks, heq, rfl⟩

lemma generate_all_data_eq (env : Env) (gen : Gen) (c : List Row)
    (h : combined_raw env gen = Except.ok c) :
    generate_all_data env gen = Except.ok (finalize env c) := by
  unfold generate_all_data finalize
  rw [h]

lemma generate_all_data_ok_inv (env : Env) (gen : Gen) (t : List Row)
    (h : generate_all_data env gen = Except.ok t) :
    ∃ c, combined_raw env gen = Except.ok c ∧ t = finalize env c := by
  unfold generate_all_data at h
  split at h
  · cases h
  · rename_i c heq
    cases h
    exact ⟨c, heq, rfl⟩

lemma sameMeta_refl (a : Row) : sameMeta a a :=
  ⟨rfl, rfl, rfl, rfl, rfl, rfl, rfl⟩

lemma sameMeta_trans {a b c : Row} (h1 : sameMeta a b) (h2 : sameMeta b c) :
    sameMeta a c := by
  obtain ⟨h1a, h1b, h1c, h1d, h1e, h1f, h1g⟩ := h1
  obtain ⟨h2a, h2b, h2c, h2d, h2e, h2f, h2g⟩ := h2
  exact ⟨h1a.trans h2a, h1b.trans h2b, h1c.trans h2c, h1d.trans h2d,
    h1e.trans h2e, h1f.trans h2f, h1g.trans h2g⟩

lemma introduce_missing_values_length (env : Env) (rows : List Row) (rate : ℚ) :
    (introduce_missing_values env rows rate).length = rows.length := by
  simp [introduce_missing_values]

lemma mem_introduce_missing_values (env : Env) (rows : List Row) (rate : ℚ)
    (r : Row) (hr : r ∈ introduce_missing_values env rows rate) :
    ∃ r' ∈ rows, sameMeta r r' := by
  unfold introduce_missing_values at hr
  obtain ⟨i, hi, hri⟩ := List.mem_map.mp hr
  have hilt : i < rows.length := List.mem_range.mp hi
  refine ⟨rows.getD i default, ?_, ?_⟩
  · rw [List.getD_eq_getElem _ _ hilt]
    exact List.getElem_mem hilt
  · subst hri
    exact ⟨rfl, rfl, rfl, rfl, rfl, rfl, rfl⟩

lemma introduce_outliers_go_length (env : Env) (rate : ℚ) (rows : List Row)
    (i k : Nat) : (introduce_outliers_go env rate rows i k).length = rows.length := by
  induction rows generalizing i k with
  | nil => rfl
  | cons r rs ih =>
    unfold introduce_outliers_go
    split <;> simp [ih]

lemma introduce_outliers_length (env : Env) (rows : List Row) (rate : ℚ) :
    (introduce_outliers env rows rate).length = rows.length :=
  introduce_outliers_go_length env rate rows 0 0

lemma mem_introduce_outliers_go (env : Env) (rate : ℚ) (rows : List Row)
    (i k : Nat) (r : Row) (hr : r ∈ introduce_outliers_go env rate rows i k) :
    ∃ r' ∈ rows, sameMeta r r' := by
  induction rows generalizing i k with
  | nil => cases hr
  | cons x xs ih =>
    unfold introduce_outliers_go at hr
    split at hr
    · rcases List.mem_cons.mp hr with h1 | h1
      · subst h1
        exact ⟨x, List.mem_cons_self x xs, ⟨rfl, rfl, rfl, rfl, rfl, rfl, rfl⟩⟩
      · obtain ⟨r', hr', hm⟩ := ih (i + 1) (k + 1) h1
        exact ⟨r', List.mem_cons_of_mem x hr', hm⟩
    · rcases List.mem_cons.mp hr with h1 | h1
      · subst h1
        exact ⟨r, List.mem_cons_self r xs, sameMeta_refl r⟩
      · obtain ⟨r', hr', hm⟩ := ih (i + 1) k h1
        exact ⟨r', List.mem_cons_of_mem x hr', hm⟩

lemma mem_introduce_outliers (env : Env) (rows : List Row) (rate : ℚ)
    (r : Row) (hr : r ∈ introduce_outliers env rows rate) :
    ∃ r' ∈ rows, sameMeta r r' :=
  mem_introduce_outliers_go env rate rows 0 0 r hr

lemma recalc_revenue_length (rows : List Row) :
    (recalc_revenue rows).length = rows.length := by
  simp [recalc_revenue]

lemma mem_recalc_revenue (rows : List Row) (r : Row) (hr : r ∈ recalc_revenue rows) :
    ∃ r' ∈ rows, sameMeta r r' ∧ r.energy = r'.energy ∧
      r.revenue = Option.map (fun e => e * r.price / 1000) r.energy := by
  unfold recalc_revenue at hr
  obtain ⟨r', hr', hrr⟩ := List.mem_map.mp hr
  subst hrr
  exact ⟨r', hr', ⟨rfl, rfl, rfl, rfl, rfl, rfl, rfl⟩, rfl, rfl⟩

lemma insertRow_length (r : Row) (l : List Row) :
    (insertRow r l).length = l.length + 1 := by
  induction l with
  | nil => rfl
  | cons x xs ih =>
    unfold insertRow
    split <;> simp [ih]

lemma sortRows_length (l : List Row) : (sortRows l).length = l.length := by
  induction l with
  | nil => rfl
  | cons x xs ih =>
    unfold sortRows
    rw [insertRow_length, ih]
    simp

lemma mem_insertRow (r x : Row) (l : List Row) :
    x ∈ insertRow r l ↔ x = r ∨ x ∈ l := by
  induction l with
  | nil => simp [insertRow]
  | cons y ys ih =>
    unfold insertRow
    split
    · simp only [List.mem_cons, ih]
      tauto
    · simp only [List.mem_cons]

lemma mem_sortRows (x : Row) (l : List Row) : x ∈ sortRows l ↔ x ∈ l := by
  induction l with
  | nil => exact Iff.rfl
  | cons y ys ih =>
    unfold sortRows
    rw [mem_insertRow, ih, List.mem_cons]

/-- Any row of the finalized table comes from a merged-table row with the
same untouched fields, and its revenue is recomputed from its own energy
and price. -/
lemma mem_finalize (env : Env) (combined : List Row) (r : Row)
    (hr : r ∈ finalize env combined) :
    (∃ r' ∈ combined, sameMeta r r') ∧
      r.revenue = Option.map (fun e => e * r.price / 1000) r.energy := by
  unfold finalize at hr
  rw [mem_sortRows] at hr
  obtain ⟨r1, hr1, hm1, _, hrev⟩ := mem_recalc_revenue _ r hr
  obtain ⟨r2, hr2, hm2⟩ := mem_introduce_outliers env _ _ r1 hr1
  obtain ⟨r3, hr3, hm3⟩ := mem_introduce_missing_values env _ _ r2 hr2
  exact ⟨⟨r3, hr3, sameMeta_trans (sameMeta_trans hm1 hm2) hm3⟩, hrev⟩

lemma finalize_length (env : Env) (combined : List Row) :
    (finalize env combined).length = combined.length := by
  unfold finalize
  rw [sortRows_length, recalc_revenue_length, introduce_outliers_length,
    introduce_missing_values_length]

lemma flatten_length_of_uniform (bs : List (List Row)) (n : Nat)
    (h : ∀ b ∈ bs, b.length = n) : bs.flatten.length = bs.length * n := by
  induction bs with
  | nil => simp
  | cons b bs ih =>
    rw [List.flatten_cons, List.length_append, h b (List.mem_cons_self b bs),
      ih (fun b' hb' => h b' (List.mem_cons_of_mem b hb')), List.length_cons]
    ring

/-- Every row of the pre-degradation merged table is a `site_row` built at
some day index from the shared weather and price series. -/
lemma mem_combined_raw (env : Env) (gen : Gen) (l : List Row) (r : Row)
    (h : combined_raw env gen = Except.ok l) (hr : r ∈ l) :
    ∃ sid' info ep dt i,
      generate_energy_production env sid' info gen.date_range
        (generate_weather_data env gen.date_range).1
        (generate_weather_data env gen.date_range).2.1
        (generate_weather_data env gen.date_range).2.2 = Except.ok ep ∧
      generate_downtime env gen.date_range info.type = some dt ∧
      i < gen.date_range.length ∧
      r = site_row gen sid' info
        (generate_weather_data env gen.date_range).1
        (generate_weather_data env gen.date_range).2.1
        (generate_weather_data env gen.date_range).2.2
        (generate_spot_market_price env gen.start_date gen.date_range) ep dt i := by
  obtain ⟨blocks, hblocks, hl⟩ := combined_raw_ok_inv env gen l h
  subst hl
  obtain ⟨block, hblock, hrblock⟩ := List.mem_flatten.mp hr
  obtain ⟨sid, _, hsite⟩ := mapExcept_ok_mem _ _ _ hblocks block hblock
  obtain ⟨sid', info, ep, dt, _, hep, hdt, hrows⟩ :=
    generate_site_data_some_ok_inv env gen sid _ _ _ _ block hsite
  subst hrows
  obtain ⟨i, hi, hr_eq⟩ := List.mem_map.mp hrblock
  exact ⟨sid', info, ep, dt, i, hep, hdt, List.mem_range.mp hi, hr_eq.symm⟩

/-! ## Concrete evaluations on the witness instances -/

lemma genW_dr : genW.date_range = [0] := by
  norm_num [genW, Gen.date_range, List.range_succ]

lemma genC4_dr : genC4.date_range = [0] := by
  norm_num [genC4, Gen.date_range, List.range_succ]

lemma genC10_dr : genC10.date_range = [0] := by
  norm_num [genC10, Gen.date_range, List.range_succ]

lemma weather_envA : generate_weather_data envA [0] = (["Sunny"], [15], [8]) := by
  norm_num [generate_weather_data, envA, weather_weights, weather_condition_labels]

lemma price_envA : generate_spot_market_price envA 0 [0] = [50] := by
  norm_num [generate_spot_market_price, envA]

lemma downtime_envA_solar : generate_downtime envA [0] "solar" = some [0] := by
  norm_num [generate_downtime, maintenance_prob, envA]

lemma maintenance_prob_wind : maintenance_prob "wind" = some (3 / 100) := by
  norm_num [maintenance_prob]
  decide

lemma downtime_envA_wind : generate_downtime envA [0] "wind" = some [0] := by
  norm_num [generate_downtime, maintenance_prob_wind, envA]

lemma solar_envA_50 : generate_solar_production envA 0 [0] ["Sunny"] [15] 50 = [7182 / 25] := by
  norm_num [generate_solar_production, solar_weather_factor, envA, List.range_succ]

lemma solar_envA_35 : generate_solar_production envA 0 [0] ["Sunny"] [15] 35 = [25137 / 125] := by
  norm_num [generate_solar_production, solar_weather_factor, envA, List.range_succ]

lemma wind_envA_100 : generate_wind_production envA 0 [0] ["Sunny"] [8] 100 = [4352 / 9] := by
  norm_num [generate_wind_production, wind_weather_factor, capacity_factor, envA,
    List.range_succ]

lemma find_genW_SOLAR001 : genW.sites.find? (fun s => s.1 == "SOLAR001") =
    some ("SOLAR001", ⟨"Desert Sun Solar Farm", "solar", some 50, none⟩) := by
  norm_num [genW, List.find?]

lemma find_genC4_SOLAR001 : genC4.sites.find? (fun s => s.1 == "SOLAR001") =
    some ("SOLAR001", ⟨"Desert Sun Solar Farm", "solar", some 50, none⟩) := by
  norm_num [genC4, List.find?]

lemma find_genC4_WIND001 : genC4.sites.find? (fun s => s.1 == "WIND001") =
    some ("WIND001", ⟨"Prairie Wind Farm", "wind", some 100, none⟩) := by
  have hb : (("SOLAR001" : String) == "WIND001") = false := by decide
  norm_num [genC4, List.find?, hb]

lemma find_genC10_SOLAR001 : genC10.sites.find? (fun s => s.1 == "SOLAR001") =
    some ("SOLAR001", ⟨"Desert Sun Solar Farm", "solar", some 50, none⟩) := by
  norm_num [genC10, List.find?]

lemma find_genC10_SOLAR002 : genC10.sites.find? (fun s => s.1 == "SOLAR002") =
    some ("SOLAR002", ⟨"Coastal Solar Array", "solar", some 35, none⟩) := by
  have hb : (("SOLAR001" : String) == "SOLAR002") = false := by decide
  norm_num [genC10, List.find?, hb]

lemma energy_envA_solar50 (dr : List Nat) (hdr : dr = [0]) :
    generate_energy_production envA "SOLAR001"
      ⟨"Desert Sun Solar Farm", "solar", some 50, none⟩ dr ["Sunny"] [15] [8] =
    Except.ok [7182 / 25] := by
  subst hdr
  norm_num [generate_energy_production, envA, SiteInfo.capacity]
  exact solar_envA_50

lemma site_genW_SOLAR001 : generate_site_data envA genW "SOLAR001"
    (some ["Sunny"]) (some [15]) (some [8]) (some [50]) = Except.ok [rW] := by
  rw [generate_site_data_eq envA genW "SOLAR001" "SOLAR001"
    ⟨"Desert Sun Solar Farm", "solar", some 50, none⟩ ["Sunny"] [15] [8] [50]
    [7182 / 25] [0] find_genW_SOLAR001 (energy_envA_solar50 _ genW_dr)
    (genW_dr ▸ downtime_envA_solar)]
  norm_num [genW_dr, site_row, rW, List.range_succ]

lemma energy_envA_wind100 (dr : List Nat) (hdr : dr = [0]) :
    generate_energy_production envA "WIND001"
      ⟨"Prairie Wind Farm", "wind", some 100, none⟩ dr ["Sunny"] [15] [8] =
    Except.ok [4352 / 9] := by
  subst hdr
  have h1 : ("wind" = "solar") = False := by simp
  norm_num [generate_energy_production, envA, SiteInfo.capacity, h1]
  exact wind_envA_100

lemma energy_envA_solar35 (dr : List Nat) (hdr : dr = [0]) :
    generate_energy_production envA "SOLAR002"
      ⟨"Coastal Solar Array", "solar", some 35, none⟩ dr ["Sunny"] [15] [8] =
    Except.ok [25137 / 125] := by
  subst hdr
  norm_num [generate_energy_production, envA, SiteInfo.capacity]
  exact solar_envA_35

lemma site_genC4_SOLAR001 : generate_site_data envA genC4 "SOLAR001"
    (some ["Sunny"]) (some [15]) (some [8]) (some [50]) = Except.ok [rW] := by
  rw [generate_site_data_eq envA genC4 "SOLAR001" "SOLAR001"
    ⟨"Desert Sun Solar Farm", "solar", some 50, none⟩ ["Sunny"] [15] [8] [50]
    [7182 / 25] [0] find_genC4_SOLAR001 (energy_envA_solar50 _ genC4_dr)
    (genC4_dr ▸ downtime_envA_solar)]
  norm_num [genC4_dr, site_row, rW, List.range_succ]

lemma site_genC4_WIND001 : generate_site_data envA genC4 "WIND001"
    (some ["Sunny"]) (some [15]) (some [8]) (some [50]) = Except.ok [rW2] := by
  rw [generate_site_data_eq envA genC4 "WIND001" "WIND001"
    ⟨"Prairie Wind Farm", "wind", some 100, none⟩ ["Sunny"] [15] [8] [50]
    [4352 / 9] [0] find_genC4_WIND001 (energy_envA_wind100 _ genC4_dr)
    (genC4_dr ▸ downtime_envA_wind)]
  norm_num [genC4_dr, site_row, rW2, List.range_succ]

lemma site_genC10_SOLAR001 : generate_site_data envA genC10 "SOLAR001"
    (some ["Sunny"]) (some [15]) (some [8]) (some [50]) = Except.ok [rW] := by
  rw [generate_site_data_eq envA genC10 "SOLAR001" "SOLAR001"
    ⟨"Desert Sun Solar Farm", "solar", some 50, none⟩ ["Sunny"] [15] [8] [50]
    [7182 / 25] [0] find_genC10_SOLAR001 (energy_envA_solar50 _ genC10_dr)
    (genC10_dr ▸ downtime_envA_solar)]
  norm_num [genC10_dr, site_row, rW, List.range_succ]

lemma site_genC10_SOLAR002 : generate_site_data envA genC10 "SOLAR002"
    (some ["Sunny"]) (some [15]) (some [8]) (some [50]) = Except.ok [rW3] := by
  rw [generate_site_data_eq envA genC10 "SOLAR002" "SOLAR002"
    ⟨"Coastal Solar Array", "solar", some 35, none⟩ ["Sunny"] [15] [8] [50]
    [25137 / 125] [0] find_genC10_SOLAR002 (energy_envA_solar35 _ genC10_dr)
    (genC10_dr ▸ downtime_envA_solar)]
  norm_num [genC10_dr, site_row, rW3, List.range_succ]

lemma combined_raw_envA_genW : combined_raw envA genW = Except.ok [rW] := by
  have h := combined_raw_eq envA genW [[rW]] ?hm
  · simpa using h
  case hm =>
    rw [genW_dr, weather_envA, show genW.start_date = 0 from rfl, price_envA]
    dsimp only
    have hsites : genW.sites.map Prod.fst = ["SOLAR001"] := by norm_num [genW]
    rw [hsites]
    exact mapExcept_cons_ok _ _ _ _ _ site_genW_SOLAR001 (mapExcept_nil _)

lemma combined_raw_envA_genC4 : combined_raw envA genC4 = Except.ok [rW, rW2] := by
  have h := combined_raw_eq envA genC4 [[rW], [rW2]] ?hm
  · simpa using h
  case hm =>
    rw [genC4_dr, weather_envA, show genC4.start_date = 0 from rfl, price_envA]
    dsimp only
    have hsites : genC4.sites.map Prod.fst = ["SOLAR001", "WIND001"] := by norm_num [genC4]
    rw [hsites]
    exact mapExcept_cons_ok _ _ _ _ _ site_genC4_SOLAR001
      (mapExcept_cons_ok _ _ _ _ _ site_genC4_WIND001 (mapExcept_nil _))

lemma finalize_envA_rW : finalize envA [rW] = [rW] := by
  unfold finalize
  have hmiss : introduce_missing_values envA [rW] 0.02 = [rW] := by
    norm_num [introduce_missing_values, envA, List.range_succ]
  have hout : introduce_outliers envA [rW] 0.01 = [rW] := by
    norm_num [introduce_outliers, introduce_outliers_go, envA]
  have hrev : recalc_revenue [rW] = [rW] := by
    norm_num [recalc_revenue, rW]
  rw [hmiss, hout, hrev]
  norm_num [sortRows, insertRow]

lemma generate_all_data_envA_genW : generate_all_data envA genW = Except.ok tW := by
  rw [generate_all_data_eq envA genW [rW] combined_raw_envA_genW, finalize_envA_rW]
  rfl

lemma weather_envB : generate_weather_data envB [0] = (["Sunny"], [15], [8]) := by
  norm_num [generate_weather_data, envB, envA, weather_weights, weather_condition_labels]

lemma price_envB : generate_spot_market_price envB 0 [0] = [50] := by
  norm_num [generate_spot_market_price, envB, envA]

lemma downtime_envB_solar : generate_downtime envB [0] "solar" = some [0] := by
  norm_num [generate_downtime, maintenance_prob, envB, envA]

lemma solar_envB_50 : generate_solar_production envB 1 [0] ["Sunny"] [15] 50 = [3591 / 10] := by
  norm_num [generate_solar_production, solar_weather_factor, envB, envA, List.range_succ]

lemma energy_envB_solar50 (dr : List Nat) (hdr : dr = [0]) :
    generate_energy_production envB "SOLAR001"
      ⟨"Desert Sun Solar Farm", "solar", some 50, none⟩ dr ["Sunny"] [15] [8] =
    Except.ok [3591 / 10] := by
  subst hdr
  norm_num [generate_energy_production, envB, envA, SiteInfo.capacity]
  exact solar_envB_50

lemma site_genW_SOLAR001_envB : generate_site_data envB genW "SOLAR001"
    (some ["Sunny"]) (some [15]) (some [8]) (some [50]) = Except.ok [rB] := by
  rw [generate_site_data_eq envB genW "SOLAR001" "SOLAR001"
    ⟨"Desert Sun Solar Farm", "solar", some 50, none⟩ ["Sunny"] [15] [8] [50]
    [3591 / 10] [0] find_genW_SOLAR001 (energy_envB_solar50 _ genW_dr)
    (genW_dr ▸ downtime_envB_solar)]
  norm_num [genW_dr, site_row, rB, List.range_succ]

lemma combined_raw_envB_genW : combined_raw envB genW = Except.ok [rB] := by
  have h := combined_raw_eq envB genW [[rB]] ?hm
  · simpa using h
  case hm =>
    rw [genW_dr, weather_envB, show genW.start_date = 0 from rfl, price_envB]
    dsimp only
    have hsites : genW.sites.map Prod.fst = ["SOLAR001"] := by norm_num [genW]
    rw [hsites]
    exact mapExcept_cons_ok _ _ _ _ _ site_genW_SOLAR001_envB (mapExcept_nil _)

lemma finalize_envB_rB : finalize envB [rB] = [rB] := by
  unfold finalize
  have hmiss : introduce_missing_values envB [rB] 0.02 = [rB] := by
    norm_num [introduce_missing_values, envB, envA, List.range_succ]
  have hout : introduce_outliers envB [rB] 0.01 = [rB] := by
    norm_num [introduce_outliers, introduce_outliers_go, envB, envA]
  have hrev : recalc_revenue [rB] = [rB] := by
    norm_num [recalc_revenue, rB]
  rw [hmiss, hout, hrev]
  norm_num [sortRows, insertRow]

lemma generate_all_data_envB_genW : generate_all_data envB genW = Except.ok [rB] := by
  rw [generate_all_data_eq envB genW [rB] combined_raw_envB_genW, finalize_envB_rB]

lemma getD_mem_of_lt {α : Type} (l : List α) (i : Nat) (d : α) (h : i < l.length) :
    l.getD i d ∈ l := by
  rw [List.getD_eq_getElem _ _ h]
  exact List.getElem_mem h

lemma generate_spot_market_price_floor (env : Env) (s : Nat) (dates : List Nat)
    (p : ℚ) (hp : p ∈ generate_spot_market_price env s dates) : 5 ≤ p := by
  unfold generate_spot_market_price at hp
  obtain ⟨i, _, hpi⟩ := List.mem_map.mp hp
  subst hpi
  exact le_max_right _ _

lemma generate_downtime_mem_bounds (env : Env) (dates : List Nat) (ty : String)
    (dt : List ℚ) (h : generate_downtime env dates ty = some dt)
    (x : ℚ) (hx : x ∈ dt) : 0 ≤ x ∧ x ≤ 24 := by
  unfold generate_downtime at h
  cases hm : maintenance_prob ty with
  | none => rw [hm] at h; cases h
  | some p =>
    rw [hm] at h
    simp only [Option.map_some] at h
    cases h
    obtain ⟨i, _, hxi⟩ := List.mem_map.mp hx
    subst hxi
    constructor
    · apply le_min _ (by norm_num)
      apply add_nonneg
      · split
        · have := env.unit_nonneg 456 (dates.length + i)
          linarith
        · exact le_refl 0
      · split
        · exact le_refl 0
        · exact env.exp_nonneg 456 i
    · exact min_le_right _ _

/-! ## The claims -/

/-- C1: in the final merged dataset, every row with present energy has
revenue within 1e-2 of energy × price / 1000 (in fact exactly equal,
because revenue is recomputed from the post-degradation energy and price
columns), and a row with missing energy has missing revenue. -/
theorem claim_C1_revenue_invariant (env : Env) (gen : Gen) (t : List Row)
    (h : generate_all_data env gen = Except.ok t) (r : Row) (hr : r ∈ t) :
    revenue_ok r := by
  obtain ⟨c, hc, ht⟩ := generate_all_data_ok_inv env gen t h
  subst ht
  obtain ⟨_, hrev⟩ := mem_finalize env c r hr
  constructor
  · intro he
    rw [he] at hrev
    simpa using hrev
  · intro e he
    rw [he] at hrev
    refine ⟨e * r.price / 1000, by simpa using hrev, ?_⟩
    rw [sub_self, abs_zero]
    norm_num

/-- Witness for C1 at the concrete instance `envA`/`genW`. -/
theorem claim_C1_witness : revenue_ok rW :=
  claim_C1_revenue_invariant envA genW tW generate_all_data_envA_genW rW (by simp [tW])

/-- C2 (code bug): two runs that agree on every numpy stream and library
function but use a different built-in string-hash salt — exactly the state
of two independent Python processes, since `np.random.seed(k)` streams are
stable across processes while `hash(site_id)` is salted per process —
produce different outputs, because the per-site production seed is
`hash(site_id) % 2**32`. -/
theorem claim_C2_hash_seed_breaks_reproducibility :
    generate_all_data envA genW ≠ generate_all_data envB genW ∧
    envA.sinPi = envB.sinPi ∧ envA.dayofyear = envB.dayofyear ∧
    envA.dayofweek = envB.dayofweek ∧ envA.normal = envB.normal ∧
    envA.unit = envB.unit ∧ envA.gammaDraw = envB.gammaDraw ∧
    envA.expDraw = envB.expDraw ∧ envA.choice4 = envB.choice4 ∧
    envA.weighted6 = envB.weighted6 := by
  refine ⟨?_, rfl, rfl, rfl, rfl, rfl, rfl, rfl, rfl, rfl⟩
  rw [generate_all_data_envA_genW, generate_all_data_envB_genW]
  intro h
  have h2 : tW = [rB] := Except.ok.inj h
  have h3 : rW = rB := by
    have h4 := congrArg (fun l => l.getD 0 default) h2
    simpa [tW] using h4
  have h5 := congrArg Row.energy h3
  simp only [rW, rB, Option.some.injEq] at h5
  norm_num at h5

/-- C3: the returned table has exactly |D| × |C| rows, and the degradation
stages neither delete nor create rows — they only alter cell values. -/
theorem claim_C3_row_count (env : Env) (gen : Gen) (t : List Row)
    (_hle : gen.start_date ≤ gen.end_date)
    (h : generate_all_data env gen = Except.ok t) :
    t.length = gen.date_range.length * gen.sites.length ∧
    degradation_preserves_rows env ∧ degradation_only_touches_cells env := by
  refine ⟨?_, ?_, ?_⟩
  · obtain ⟨c, hc, ht⟩ := generate_all_data_ok_inv env gen t h
    subst ht
    rw [finalize_length]
    obtain ⟨blocks, hblocks, hcc⟩ := combined_raw_ok_inv env gen c hc
    subst hcc
    rw [flatten_length_of_uniform blocks gen.date_range.length ?hu]
    · rw [mapExcept_ok_length _ _ _ hblocks, List.length_map]
      ring
    case hu =>
      intro b hb
      obtain ⟨sid, _, hsid⟩ := mapExcept_ok_mem _ _ _ hblocks b hb
      exact generate_site_data_ok_length env gen sid _ _ _ _ b hsid
  · intro rows rate
    exact ⟨introduce_missing_values_length env rows rate,
      introduce_outliers_length env rows rate⟩
  · intro rows rate r
    exact ⟨mem_introduce_missing_values env rows rate r,
      mem_introduce_outliers env rows rate r⟩

/-- Witness for C3 at the concrete instance `envA`/`genW`. -/
theorem claim_C3_witness :
    tW.length = genW.date_range.length * genW.sites.length ∧
    degradation_preserves_rows envA ∧ degradation_only_touches_cells envA :=
  claim_C3_row_count envA genW tW (by norm_num [genW]) generate_all_data_envA_genW

/-- C4: in the pre-degradation merged table, any two rows carrying the
same date show identical weather condition, temperature, wind speed and
price, because one shared weather series and one shared price series are
built once and passed to every site's generation. -/
theorem claim_C4_shared_weather_price (env : Env) (gen : Gen) (l : List Row)
    (h : combined_raw env gen = Except.ok l) (r1 r2 : Row)
    (h1 : r1 ∈ l) (h2 : r2 ∈ l) (hd : r1.date = r2.date) :
    shared_row_fields r1 r2 := by
  obtain ⟨sid1, info1, ep1, dt1, i1, _, _, hi1, hr1⟩ := mem_combined_raw env gen l r1 h h1
  obtain ⟨sid2, info2, ep2, dt2, i2, _, _, hi2, hr2⟩ := mem_combined_raw env gen l r2 h h2
  have hdate1 : r1.date = gen.start_date + i1 := by
    rw [hr1]
    exact date_range_getD gen i1 hi1
  have hdate2 : r2.date = gen.start_date + i2 := by
    rw [hr2]
    exact date_range_getD gen i2 hi2
  have hii : i1 = i2 := by omega
  subst hii
  subst hr1
  subst hr2
  exact ⟨rfl, rfl, rfl, rfl⟩

/-- Witness for C4: the solar and wind rows of the same day in `genC4`. -/
theorem claim_C4_witness : shared_row_fields rW rW2 :=
  claim_C4_shared_weather_price envA genC4 [rW, rW2] combined_raw_envA_genC4 rW rW2
    (by simp) (by simp) rfl

/-- C5: the wind capacity factor follows the three-region power curve
(cut-in 3.5, rated 12, cut-out 25), and a day below cut-in produces
exactly zero energy in the wind model. -/
theorem claim_C5_wind_power_curve :
    wind_power_curve_spec ∧ wind_zero_below_cut_in := by
  constructor
  · intro ws
    refine ⟨?_, ?_, ?_, ?_⟩
    · intro h
      simp [capacity_factor, h]
    · intro h1 h2
      unfold capacity_factor
      rw [if_neg (not_lt.mpr h1), if_pos h2]
    · intro h1 h2
      unfold capacity_factor
      rw [if_neg (not_lt.mpr (by linarith)), if_neg (not_lt.mpr h1), if_pos h2]
    · intro h
      unfold capacity_factor
      rw [if_neg (not_lt.mpr (by linarith)), if_neg (not_lt.mpr (by linarith)),
        if_neg (not_lt.mpr h)]
  · intro env seed dates weather wind_speed capacity i hi hws
    unfold generate_wind_production
    rw [List.getD_eq_getElem _ _ (by simpa using hi)]
    simp only [List.getElem_map, List.getElem_range]
    rw [show capacity_factor (wind_speed.getD i 0) = 0 from by
      unfold capacity_factor
      rw [if_pos hws]]
    simp

/-- C6: every price produced by the price model is clamped to the floor 5,
so `SpotMarketPrice` is strictly positive in every output row. -/
theorem claim_C6_price_positive (env : Env) (gen : Gen) (t : List Row)
    (h : generate_all_data env gen = Except.ok t) :
    price_model_floored env gen ∧ table_price_positive t := by
  constructor
  · intro p hp
    exact generate_spot_market_price_floor env _ _ p hp
  · intro r hr
    obtain ⟨c, hc, ht⟩ := generate_all_data_ok_inv env gen t h
    subst ht
    obtain ⟨⟨r', hr', hmeta⟩, _⟩ := mem_finalize env c r hr
    obtain ⟨sid, info, ep, dt, i, _, _, hi, hreq⟩ := mem_combined_raw env gen c r' hc hr'
    have hprice : r.price =
        (generate_spot_market_price env gen.start_date gen.date_range).getD i 0 := by
      rw [hmeta.2.2.2.2.1, hreq]
      rfl
    have hlen : i < (generate_spot_market_price env gen.start_date gen.date_range).length := by
      rw [generate_spot_market_price_length]
      exact hi
    have hfloor := generate_spot_market_price_floor env gen.start_date gen.date_range _
      (getD_mem_of_lt _ i 0 hlen)
    rw [hprice]
    linarith

/-- Witness for C6 at the concrete instance `envA`/`genW`. -/
theorem claim_C6_witness : price_model_floored envA genW ∧ table_price_positive tW :=
  claim_C6_price_positive envA genW tW generate_all_data_envA_genW

/-- C7: the downtime model always yields hours in [0, 24] (non-negative
maintenance plus non-negative weather outage, capped at 24), so
`DowntimeHours ∈ [0, 24]` in every output row. -/
theorem claim_C7_downtime_bounds (env : Env) (gen : Gen) (t : List Row)
    (h : generate_all_data env gen = Except.ok t) :
    downtime_model_bounded env ∧ table_downtime_bounded t := by
  constructor
  · intro dates stype dt hdt x hx
    exact generate_downtime_mem_bounds env dates stype dt hdt x hx
  · intro r hr
    obtain ⟨c, hc, ht⟩ := generate_all_data_ok_inv env gen t h
    subst ht
    obtain ⟨⟨r', hr', hmeta⟩, _⟩ := mem_finalize env c r hr
    obtain ⟨sid, info, ep, dt, i, _, hdt, hi, hreq⟩ := mem_combined_raw env gen c r' hc hr'
    have hdown : r.downtime = dt.getD i 0 := by
      rw [hmeta.2.2.2.2.2.2, hreq]
      rfl
    have hlen : i < dt.length := by
      rw [generate_downtime_some_length env gen.date_range info.type dt hdt]
      exact hi
    have hb := generate_downtime_mem_bounds env gen.date_range info.type dt hdt _
      (getD_mem_of_lt _ i 0 hlen)
    rw [hdown]
    exact hb

/-- Witness for C7 at the concrete instance `envA`/`genW`. -/
theorem claim_C7_witness : downtime_model_bounded envA ∧ table_downtime_bounded tW :=
  claim_C7_downtime_bounds envA genW tW generate_all_data_envA_genW

lemma generate_solar_production_nil (env : Env) (seed : Nat) (w : List String)
    (t : List ℚ) (c : ℚ) : generate_solar_production env seed [] w t c = [] := by
  simp [generate_solar_production]

lemma generate_wind_production_nil (env : Env) (seed : Nat) (w : List String)
    (ws : List ℚ) (c : ℚ) : generate_wind_production env seed [] w ws c = [] := by
  simp [generate_wind_production]

lemma generate_battery_production_nil (env : Env) (seed : Nat) (w : List String)
    (c : ℚ) : generate_battery_production env seed [] w c = [] := by
  simp [generate_battery_production]

lemma generate_energy_production_empty (env : Env) (sid : String) (info : SiteInfo)
    (w : List String) (t ws : List ℚ) (hty : known_site_type info.type) :
    generate_energy_production env sid info [] w t ws = Except.ok [] := by
  unfold generate_energy_production
  rcases hty with h | h | h <;> rw [h]
  · rw [if_pos rfl, generate_solar_production_nil]
  · rw [if_neg (by simp), if_pos rfl, generate_wind_production_nil]
  · rw [if_neg (by simp), if_neg (by simp), if_pos rfl, generate_battery_production_nil]

lemma maintenance_prob_solar : maintenance_prob "solar" = some (1 / 50) := by
  norm_num [maintenance_prob]

lemma maintenance_prob_battery : maintenance_prob "battery" = some (1 / 100) := by
  unfold maintenance_prob
  rw [if_neg (by simp), if_neg (by simp), if_pos rfl]
  norm_num

lemma generate_downtime_some_of_known (env : Env) (dates : List Nat) (ty : String)
    (hty : known_site_type ty) :
    generate_downtime env dates ty = some ((List.range dates.length).map fun i =>
      min ((if env.unit 456 i < (maintenance_prob ty).getD 0
              then 2 + 10 * env.unit 456 (dates.length + i) else 0) +
            if 3 < env.expDraw 456 i then 0 else env.expDraw 456 i) 24) := by
  unfold generate_downtime
  rcases hty with h | h | h <;> subst h
  · rw [maintenance_prob_solar]
    rfl
  · rw [maintenance_prob_wind]
    rfl
  · rw [maintenance_prob_battery]
    rfl

lemma generate_downtime_empty (env : Env) (ty : String) (hty : known_site_type ty) :
    generate_downtime env [] ty = some [] := by
  rw [generate_downtime_some_of_known env [] ty hty]
  rfl

lemma generate_site_data_empty (env : Env) (gen : Gen) (sid sid' : String)
    (info : SiteInfo) (hdr : gen.date_range = [])
    (hfind : gen.sites.find? (fun s => s.1 == sid) = some (sid', info))
    (hty : known_site_type info.type) :
    generate_site_data env gen sid (some []) (some []) (some []) (some []) =
      Except.ok [] := by
  rw [generate_site_data_eq env gen sid sid' info [] [] [] [] [] [] hfind
    (hdr ▸ generate_energy_production_empty env sid' info [] [] [] hty)
    (hdr ▸ generate_downtime_empty env info.type hty)]
  rw [hdr]
  rfl

lemma reference_sites_types : ∀ x ∈ reference_sites, known_site_type x.2.type := by
  intro x hx
  simp only [reference_sites, List.mem_cons, List.not_mem_nil, or_false] at hx
  rcases hx with rfl | rfl | rfl | rfl | rfl | rfl <;> simp [known_site_type]

lemma mapExcept_ok_of_all {α : Type} (f : α → Except String (List Row)) (l : List α)
    (h : ∀ a ∈ l, f a = Except.ok []) :
    mapExcept f l = Except.ok (l.map fun _ => []) := by
  induction l with
  | nil => rfl
  | cons a as ih =>
    unfold mapExcept
    rw [h a (List.mem_cons_self a as),
      ih (fun a' ha' => h a' (List.mem_cons_of_mem a ha'))]
    rfl

lemma flatten_map_nil {α : Type} (l : List α) :
    (l.map fun _ => ([] : List Row)).flatten = [] := by
  induction l with
  | nil => rfl
  | cons a as ih => simp [ih]

lemma finalize_nil (env : Env) : finalize env [] = [] := rfl

/-- With an inverted date range the generator does not fail: its date
range is empty and `generate_all_data` returns an empty table. -/
lemma generate_all_data_empty_range (env : Env) (gen : Gen)
    (hse : gen.end_date < gen.start_date) (hsites : gen.sites = reference_sites) :
    generate_all_data env gen = Except.ok [] := by
  have hdr : gen.date_range = [] := by
    unfold Gen.date_range
    rw [if_neg (by omega)]
  have hw : generate_weather_data env gen.date_range = ([], [], []) := by
    rw [hdr]
    rfl
  have hp : generate_spot_market_price env gen.start_date gen.date_range = [] := by
    rw [hdr]
    rfl
  have hall : ∀ sid ∈ gen.sites.map Prod.fst,
      generate_site_data env gen sid (some []) (some []) (some []) (some []) =
        Except.ok [] := by
    intro sid hsid
    have hex : ∃ x ∈ gen.sites, (fun s => s.1 == sid) x = true := by
      obtain ⟨x, hx, hx1⟩ := List.mem_map.mp hsid
      exact ⟨x, hx, by simp [hx1]⟩
    obtain ⟨si, hfind⟩ := Option.isSome_iff_exists.mp (List.find?_isSome.mpr hex)
    have hmem := List.mem_of_find?_eq_some hfind
    rw [hsites] at hmem
    exact generate_site_data_empty env gen sid si.1 si.2 hdr
      (by rw [Prod.mk.eta]; exact hfind) (reference_sites_types si hmem)
  have hcomb : combined_raw env gen = Except.ok [] := by
    unfold combined_raw
    dsimp only
    rw [hw, hp]
    dsimp only
    rw [mapExcept_ok_of_all _ _ hall]
    dsimp only
    rw [flatten_map_nil]
  rw [generate_all_data_eq env gen [] hcomb, finalize_nil]

/-- C8 counterexample: the concrete inverted range 5..1 (start after end)
is accepted by construction — the stored date range is empty — and
`generate_all_data` returns an empty table instead of failing. -/
theorem claim_C8_counterexample :
    genInv.start_date = 5 ∧ genInv.end_date = 1 ∧ genInv.date_range = [] ∧
    generate_all_data envA genInv = Except.ok [] :=
  ⟨rfl, rfl, by norm_num [genInv, Gen.date_range],
    generate_all_data_empty_range envA genInv (by norm_num [genInv]) rfl⟩

/-- C8 (amended): constructing the generator with an inverted date range
does not fail — the date range is empty, and on the reference catalog
`generate_all_data` returns an empty (0-row) artifact rather than
raising an error. -/
theorem claim_C8_amended (env : Env) (gen : Gen)
    (hse : gen.end_date < gen.start_date) (hsites : gen.sites = reference_sites) :
    generate_all_data env gen = Except.ok [] :=
  generate_all_data_empty_range env gen hse hsites

/-- Witness for the amended C8 at a second concrete inverted range. -/
theorem claim_C8_witness :
    generate_all_data envA { start_date := 7, end_date := 2, sites := reference_sites } =
      Except.ok [] :=
  claim_C8_amended envA { start_date := 7, end_date := 2, sites := reference_sites }
    (by norm_num) rfl

/-- C9: dispatching with a site type other than solar/wind/battery raises
`ValueError` immediately, and a recognized type never reaches the error
branch. -/
theorem claim_C9_dispatch (env : Env) : dispatch_spec env := by
  intro sid info dates w t ws
  constructor
  · intro hk
    simp only [known_site_type, not_or] at hk
    obtain ⟨h1, h2, h3⟩ := hk
    unfold generate_energy_production
    rw [if_neg h1, if_neg h2, if_neg h3]
  · intro hk
    unfold generate_energy_production
    rcases hk with h | h | h <;> rw [h]
    · rw [if_pos rfl]
      rfl
    · rw [if_neg (by simp), if_pos rfl]
      rfl
    · rw [if_neg (by simp), if_neg (by simp), if_pos rfl]
      rfl

/-- Witness for C9: an unrecognized type errors, a solar site succeeds. -/
theorem claim_C9_witness :
    generate_energy_production envA "NUKE001" siteNuclear [] [] [] [] =
      Except.error ("Unknown site type: " ++ "nuclear") ∧
    (generate_energy_production envA "SOLAR001"
      ⟨"Desert Sun Solar Farm", "solar", some 50, none⟩ [] [] [] []).isOk = true :=
  ⟨(claim_C9_dispatch envA "NUKE001" siteNuclear [] [] [] []).1
      (by simp [siteNuclear, known_site_type]),
    (claim_C9_dispatch envA "SOLAR001"
      ⟨"Desert Sun Solar Farm", "solar", some 50, none⟩ [] [] [] []).2 (Or.inl rfl)⟩

/-- C10: two sites of the same type get identical `DowntimeHours`
columns, because the downtime model reseeds with the constant 456 and
depends only on the date range and the site type. -/
theorem claim_C10_same_type_same_downtime (env : Env) (gen : Gen)
    (sid1 sid2 sid1' sid2' : String) (info1 info2 : SiteInfo)
    (w : List String) (t ws p : List ℚ) (rows1 rows2 : List Row)
    (hf1 : gen.sites.find? (fun s => s.1 == sid1) = some (sid1', info1))
    (hf2 : gen.sites.find? (fun s => s.1 == sid2) = some (sid2', info2))
    (hty : info1.type = info2.type)
    (h1 : generate_site_data env gen sid1 (some w) (some t) (some ws) (some p) =
      Except.ok rows1)
    (h2 : generate_site_data env gen sid2 (some w) (some t) (some ws) (some p) =
      Except.ok rows2) :
    downtime_col rows1 = downtime_col rows2 := by
  obtain ⟨sid1'', info1'', ep1, dt1, hf1', hep1, hdt1, hr1⟩ :=
    generate_site_data_some_ok_inv env gen sid1 w t ws p rows1 h1
  obtain ⟨sid2'', info2'', ep2, dt2, hf2', hep2, hdt2, hr2⟩ :=
    generate_site_data_some_ok_inv env gen sid2 w t ws p rows2 h2
  rw [hf1] at hf1'
  rw [hf2] at hf2'
  obtain ⟨rfl, rfl⟩ : sid1' = sid1'' ∧ info1 = info1'' := by
    have := Option.some.inj hf1'
    exact ⟨congrArg Prod.fst this, congrArg Prod.snd this⟩
  obtain ⟨rfl, rfl⟩ : sid2' = sid2'' ∧ info2 = info2'' := by
    have := Option.some.inj hf2'
    exact ⟨congrArg Prod.fst this, congrArg Prod.snd this⟩
  rw [hty] at hdt1
  have hdt : dt1 = dt2 := Option.some.inj (hdt1.symm.trans hdt2)
  subst hdt
  subst hr1
  subst hr2
  simp only [downtime_col, List.map_map]
  rfl

/-- Witness for C10: the two solar sites of `genC10` share the downtime
column. -/
theorem claim_C10_witness : downtime_col [rW] = downtime_col [rW3] :=
  claim_C10_same_type_same_downtime envA genC10 "SOLAR001" "SOLAR002"
    "SOLAR001" "SOLAR002"
    ⟨"Desert Sun Solar Farm", "solar", some 50, none⟩
    ⟨"Coastal Solar Array", "solar", some 35, none⟩
    ["Sunny"] [15] [8] [50] [rW] [rW3]
    find_genC10_SOLAR001 find_genC10_SOLAR002 rfl
    site_genC10_SOLAR001 site_genC10_SOLAR002
